import Mathlib

/-
Verification development for the luffy embedded media-player controller.

The repository has three generations of the player (luffy01.py, luffy03.py,
luffy06.py) plus a display demo (simprain.py).  The playback state machine is
shared between luffy03 and luffy06; luffy06 additionally routes engine
notifications and display refreshes through an event queue drained by a
dedicated thread.  We embed both shapes:

* `Luffy03` models the direct-call controller of luffy03.py: the VLC player's
  loaded media is `media : Option String`, button presses and the end-of-media
  callback mutate the `AudioPlayer` fields directly.
* `Luffy06` models luffy06.py: the same transitions, plus the event queue
  (`MEDIA_END` / `UPDATE_DISPLAY` entries), the event-handler thread's
  dequeue-with-timeout step, and the main run loop's once-per-second tick.

Python integers are embedded as `Int` (volume) and `Nat` (indices); VLC engine
calls that can raise are modelled with an explicit failure flag, the
surrounding try/except blocks of the source becoming the identity on state.
-/

namespace Luffy03

/-- The mutable fields of luffy03's `AudioPlayer` that the controller reads or
writes, plus the VLC player's currently loaded media (`player.get_media()` /
`player.set_media(...)`): `none` until the first `start_playback`, afterwards
the path of the loaded file. -/
structure Player where
  audio_files : List String
  current_track_index : Nat
  is_playing : Bool
  volume : Int
  media : Option String
deriving Repr, DecidableEq

/-- The three playback statuses of the specification, read off the embedded
state: `Stopped` iff no media has been loaded into the engine, otherwise
`Playing`/`Paused` according to `is_playing`. -/
inductive Status where
  | Stopped
  | Playing
  | Paused
deriving Repr, DecidableEq

def statusOf (s : Player) : Status :=
  match s.media with
  | none => .Stopped
  | some _ => if s.is_playing then .Playing else .Paused

/-- The four buttons: A = Play/Pause, B = Next, X = Volume Down,
Y = Volume Up. -/
inductive Label where
  | A
  | B
  | X
  | Y
deriving Repr, DecidableEq

/-- Semantic events processed by the controller. -/
inductive Event where
  | ButtonPressed (l : Label)
  | MediaEnded
deriving Repr, DecidableEq

/-- `AudioPlayer.start_playback` (luffy03.py lines 129-145).  The whole body is
wrapped in try/except which only logs, so a failing engine call — modelled by
the `engineFails` flag standing for `media_new`/`set_media`/`play` raising —
leaves the state exactly as it was (in particular `is_playing` keeps its old
value, since `self.is_playing = True` comes after `play()`).  An out-of-range
index raises IndexError on `self.audio_files[self.current_track_index]`, also
caught, also leaving the state unchanged. -/
def start_playback (engineFails : Bool) (s : Player) : Player :=
  if h : s.current_track_index < s.audio_files.length then
    if engineFails then s
    else { s with media := some (s.audio_files.get ⟨s.current_track_index, h⟩),
                  is_playing := true }
  else s

/-- `AudioPlayer.toggle_playback` (luffy03.py lines 116-127): with no media
loaded it starts playback; otherwise it pauses when playing and resumes when
paused. -/
def toggle_playback (engineFails : Bool) (s : Player) : Player :=
  match s.media with
  | none => start_playback engineFails s
  | some _ => { s with is_playing := !s.is_playing }

/-- `AudioPlayer.next_track` (luffy03.py lines 158-165): advance the index
cyclically; reload and play only when currently playing.  With an empty
catalog the Python modulo raises ZeroDivisionError, caught by the callers'
try/except, so the state is unchanged. -/
def next_track (engineFails : Bool) (s : Player) : Player :=
  if s.audio_files.length = 0 then s
  else
    let s := { s with
      current_track_index := (s.current_track_index + 1) % s.audio_files.length }
    if s.is_playing then start_playback engineFails s else s

/-- `AudioPlayer.adjust_volume` (luffy03.py lines 167-175): clamp into
`[0,100]`; the engine call `audio_set_volume` does not touch controller
state. -/
def adjust_volume (delta : Int) (s : Player) : Player :=
  { s with volume := max 0 (min 100 (s.volume + delta)) }

/-- `AudioPlayer.handle_button` (luffy03.py lines 99-114), with the engine
succeeding. -/
def handle_button (l : Label) (s : Player) : Player :=
  match l with
  | .A => toggle_playback false s
  | .B => next_track false s
  | .X => adjust_volume (-5) s
  | .Y => adjust_volume 5 s

/-- `AudioPlayer.on_media_end` (luffy03.py lines 147-149): the
MediaPlayerEndReached callback just calls `next_track`. -/
def on_media_end (s : Player) : Player :=
  next_track false s

/-- One dequeued semantic event applied to the state (engine succeeding). -/
def step (e : Event) (s : Player) : Player :=
  match e with
  | .ButtonPressed l => handle_button l s
  | .MediaEnded => on_media_end s

/-- The controller state right after `AudioPlayer.__init__` for a given
catalog: index 0, not playing, volume 50, no media loaded. -/
def init (files : List String) : Player :=
  { audio_files := files
    current_track_index := 0
    is_playing := false
    volume := 50
    media := none }

/-- The state after processing a sequence of events from startup. -/
def run (files : List String) (es : List Event) : Player :=
  es.foldl (fun s e => step e s) (init files)

/-- A filename lowercased character by character (Python lowercases only the
letters matched by the case-insensitive glob classes; for the comparison with
a fixed lowercase extension the two coincide). -/
def lowerName (s : String) : List Char :=
  s.data.map Char.toLower

/-- Whether a filename matches the glob `*.{ext}` for a lowercase extension
`ext`, i.e. whether it ends in `"." ++ ext` up to letter case — the meaning of
luffy03.py's patterns `[mM][pP]3`, `[wW][aA][vV]`, `[mM]4[aA]`,
`[aA][aA][cC]`. -/
def extMatches (ext : String) (name : String) : Bool :=
  List.isSuffixOf ("." ++ ext).data (lowerName name)

/-- The four extension patterns of `load_audio_files`, in source order. -/
def audioExtensions : List String :=
  ["mp3", "wav", "m4a", "aac"]

/-- Whether any of the four extension globs accepts the filename. -/
def isAudioFile (name : String) : Bool :=
  audioExtensions.any (fun ext => extMatches ext name)

/-- Lexicographic comparison by code point, the order Python's `sorted` uses
on strings. -/
def strLEgo : List Char → List Char → Bool
  | [], _ => true
  | _ :: _, [] => false
  | c :: cs, d :: ds =>
    if c.toNat < d.toNat then true
    else if d.toNat < c.toNat then false
    else strLEgo cs ds

def strLE (a b : String) : Bool :=
  strLEgo a.data b.data

/-- Insertion into a sorted list, used to model Python's `sorted`. -/
def insertSorted (x : String) : List String → List String
  | [] => [x]
  | y :: ys => if strLE x y then x :: y :: ys else y :: insertSorted x ys

def sortStrings (l : List String) : List String :=
  l.foldr insertSorted []

/-- `AudioPlayer.load_audio_files` (luffy03.py lines 75-97), over an abstract
directory: `dirExists` is whether `audio_library` exists and `entries` its
filenames.  Missing directory or no matching file is a fatal startup error
(`sys.exit(1)` after logging the diagnostic), modelled as `Except.error` with
the logged message; otherwise the catalog is the concatenation, extension by
extension, of the sorted matching filenames. -/
def load_audio_files (dirExists : Bool) (entries : List String) :
    Except String (List String) :=
  if dirExists = false then .error "audio_library directory not found"
  else
    let audio_files :=
      (audioExtensions.map (fun ext =>
        sortStrings (entries.filter (fun f => extMatches ext f)))).flatten
    if audio_files = [] then .error "No audio files found in audio_library"
    else .ok audio_files

/-- Outcome of `AudioPlayer.__init__`: either the process exited with code 1
and a diagnostic before the run loop, or the controller state is built. -/
inductive StartupOutcome where
  | exit1 (diag : String)
  | ok (p : Player)
deriving Repr, DecidableEq

/-- Startup (`AudioPlayer.__init__` after GPIO setup): load the catalog; a
load failure is `sys.exit(1)`, otherwise the initial `Player` is built over
the catalog. -/
def startupOf (dirExists : Bool) (entries : List String) : StartupOutcome :=
  match load_audio_files dirExists entries with
  | .error diag => .exit1 diag
  | .ok files => .ok (init files)

/-- Total number of `update_display` (render) calls over a whole execution:
`__init__` renders nothing; when startup exits nothing else runs; otherwise
`run()` renders once on entry and each successfully handled event renders
once. -/
def programRenders (dirExists : Bool) (entries : List String)
    (es : List Event) : Nat :=
  match startupOf dirExists entries with
  | .exit1 _ => 0
  | .ok _ => 1 + es.length

end Luffy03

namespace Luffy06

/-- The string events luffy06.py puts on `self.event_queue`. -/
inductive QEvent where
  | MEDIA_END
  | UPDATE_DISPLAY
deriving Repr, DecidableEq

/-- The mutable fields of luffy06's `AudioPlayer` relevant to the controller:
the playback fields, the loaded media handle `current_media`, and the FIFO
`event_queue` (front of the list is the next element `get` returns). -/
structure Player6 where
  audio_files : List String
  current_track_index : Nat
  is_playing : Bool
  volume : Int
  current_media : Option String
  event_queue : List QEvent
deriving Repr, DecidableEq

/-- `AudioPlayer.start_playback` (luffy06.py lines 262-288): release the old
media (detaching its subscription), load the new one, play, and enqueue an
`UPDATE_DISPLAY`; the try/except only logs, so a raising engine call leaves
the state unchanged (the `engineFails` flag, as in `Luffy03`). -/
def start_playback (engineFails : Bool) (s : Player6) : Player6 :=
  if h : s.current_track_index < s.audio_files.length then
    if engineFails then s
    else { s with current_media := some (s.audio_files.get ⟨s.current_track_index, h⟩),
                  is_playing := true,
                  event_queue := s.event_queue ++ [.UPDATE_DISPLAY] }
  else s

/-- `AudioPlayer.toggle_playback` (luffy06.py lines 249-260); the
pause/resume branches enqueue `UPDATE_DISPLAY` instead of rendering. -/
def toggle_playback (engineFails : Bool) (s : Player6) : Player6 :=
  match s.current_media with
  | none => start_playback engineFails s
  | some _ =>
    { s with is_playing := !s.is_playing,
             event_queue := s.event_queue ++ [.UPDATE_DISPLAY] }

/-- `AudioPlayer.next_track` (luffy06.py lines 308-315). -/
def next_track (engineFails : Bool) (s : Player6) : Player6 :=
  if s.audio_files.length = 0 then s
  else
    let s := { s with
      current_track_index := (s.current_track_index + 1) % s.audio_files.length }
    if s.is_playing then start_playback engineFails s
    else { s with event_queue := s.event_queue ++ [.UPDATE_DISPLAY] }

/-- `AudioPlayer.adjust_volume` (luffy06.py lines 317-325). -/
def adjust_volume (delta : Int) (s : Player6) : Player6 :=
  { s with volume := max 0 (min 100 (s.volume + delta)),
           event_queue := s.event_queue ++ [.UPDATE_DISPLAY] }

/-- `AudioPlayer.handle_button` (luffy06.py lines 231-247): the GPIO callback
context takes `self.lock` and applies the transition to the shared state
directly, in its own thread. -/
def handle_button (l : Luffy03.Label) (s : Player6) : Player6 :=
  match l with
  | .A => toggle_playback false s
  | .B => next_track false s
  | .X => adjust_volume (-5) s
  | .Y => adjust_volume 5 s

/-- `AudioPlayer.on_media_state_changed` (luffy06.py lines 290-298) at the
`Ended` engine state: the engine-thread callback only enqueues `MEDIA_END`
and touches no playback field. -/
def on_media_state_changed (s : Player6) : Player6 :=
  { s with event_queue := s.event_queue ++ [.MEDIA_END] }

/-- `self.event_queue.get(timeout=1.0)` from the event-handler thread:
`none` when the 1-second wait times out on an empty queue. -/
def queue_get (s : Player6) : Option QEvent × Player6 :=
  match s.event_queue with
  | [] => (none, s)
  | e :: rest => (some e, { s with event_queue := rest })

/-- Processing of one dequeued event by `AudioPlayer.event_handler`
(luffy06.py lines 73-84); the second component counts `update_display`
(render) calls: `MEDIA_END` runs `next_track` under the lock, rendering
nothing itself; `UPDATE_DISPLAY` renders once. -/
def processEvent (s : Player6) (e : QEvent) : Player6 × Nat :=
  match e with
  | .MEDIA_END => (next_track false s, 0)
  | .UPDATE_DISPLAY => (s, 1)

/-- One pass of `event_handler`'s loop body: a timed-out `get` raises
`queue.Empty`, caught by the bare except which just continues — nothing is
synthesized and nothing renders. -/
def event_handler_step (s : Player6) (got : Option QEvent) : Player6 × Nat :=
  match got with
  | none => (s, 0)
  | some e => processEvent s e

/-- The event-handler thread draining the queue until it blocks empty, with
fuel (each step strictly shrinks `2 * MEDIA_END count + queue length`, and a
drain during one quiet tick touches at most a couple of entries). -/
def drainLoop : Nat → Player6 → Player6 × Nat
  | 0, s => (s, 0)
  | fuel + 1, s =>
    match s.event_queue with
    | [] => (s, 0)
    | e :: rest =>
      let p := processEvent { s with event_queue := rest } e
      let q := drainLoop fuel p.1
      (q.1, p.2 + q.2)

/-- One iteration of the main loop of `AudioPlayer.run` (luffy06.py lines
360-364): once per second it enqueues `UPDATE_DISPLAY`, but only while
`is_playing` — the timed-out consumer itself synthesizes nothing. -/
def run_tick (s : Player6) : Player6 :=
  if s.is_playing then { s with event_queue := s.event_queue ++ [.UPDATE_DISPLAY] }
  else s

/-- Render calls during one quiet second (no button press, no engine
notification): the main loop ticks once and the event-handler thread drains
whatever is queued. -/
def quietTickRenders (s : Player6) : Nat :=
  (drainLoop (2 * (run_tick s).event_queue.length + 1) (run_tick s)).2

/-- A startup state of luffy06 over a catalog and the randomized initial
index (`random.randint(0, len-1)` modelled as a parameter). -/
def init6 (files : List String) (startIndex : Nat) : Player6 :=
  { audio_files := files
    current_track_index := startIndex
    is_playing := false
    volume := 50
    current_media := none
    event_queue := [] }

end Luffy06

open Luffy03

/-- C1: a PlayPause press from `Stopped` loads and plays the current track and
yields `Playing`; from `Playing` it yields `Paused`; from `Paused` it yields
`Playing`; `trackIndex` and `volume` are unchanged in all three cases. -/
theorem playpause_transitions (s : Player)
    (h : s.current_track_index < s.audio_files.length) :
    (statusOf s = .Stopped →
        statusOf (handle_button .A s) = .Playing ∧
        (handle_button .A s).media
          = some (s.audio_files.get ⟨s.current_track_index, h⟩))
  ∧ (statusOf s = .Playing → statusOf (handle_button .A s) = .Paused)
  ∧ (statusOf s = .Paused → statusOf (handle_button .A s) = .Playing)
  ∧ (handle_button .A s).current_track_index = s.current_track_index
  ∧ (handle_button .A s).volume = s.volume := by
  obtain ⟨files, idx, playing, vol, media⟩ := s
  cases media with
  | none =>
    simp only [statusOf, handle_button, toggle_playback, start_playback] at h ⊢
    simp [h]
  | some m =>
    cases playing <;> simp [statusOf, handle_button, toggle_playback]

/-- Witness for C1 at the startup state over a two-track catalog. -/
theorem playpause_transitions_witness :
    statusOf (handle_button .A (init ["a.mp3", "b.mp3"])) = .Playing ∧
    (handle_button .A (init ["a.mp3", "b.mp3"])).media = some "a.mp3" :=
  (playpause_transitions (init ["a.mp3", "b.mp3"]) (by decide)).1 rfl

/-- C2 fails on the code: from startup over the catalog
`["track0.mp3", "track1.mp3"]`, the event sequence PlayPause, PlayPause,
Next, PlayPause reaches a state with status `Playing` and `trackIndex = 1`,
yet the engine still holds the media of track 0 — `next_track` while paused
only moves the index and `toggle_playback` then resumes whatever media is
loaded, so the loaded-media invariant is violated in a reachable state. -/
theorem playing_media_invariant_violated :
    statusOf (run ["track0.mp3", "track1.mp3"]
      [.ButtonPressed .A, .ButtonPressed .A, .ButtonPressed .B,
       .ButtonPressed .A]) = .Playing
  ∧ (run ["track0.mp3", "track1.mp3"]
      [.ButtonPressed .A, .ButtonPressed .A, .ButtonPressed .B,
       .ButtonPressed .A]).current_track_index = 1
  ∧ (run ["track0.mp3", "track1.mp3"]
      [.ButtonPressed .A, .ButtonPressed .A, .ButtonPressed .B,
       .ButtonPressed .A]).media = some "track0.mp3"
  ∧ ["track0.mp3", "track1.mp3"].getD 1 "" = "track1.mp3" := by
  refine ⟨rfl, rfl, ?_, rfl⟩
  decide

/-- C3 fails on the code: `on_media_end` calls `next_track` unconditionally,
so a `MediaEnded` processed in the reachable `Paused` state (PlayPause then
PlayPause from startup) advances `trackIndex` from 0 to 1 instead of leaving
the state unchanged. -/
theorem media_end_advances_while_paused :
    statusOf (run ["track0.mp3", "track1.mp3"]
      [.ButtonPressed .A, .ButtonPressed .A]) = .Paused
  ∧ (run ["track0.mp3", "track1.mp3"]
      [.ButtonPressed .A, .ButtonPressed .A]).current_track_index = 0
  ∧ (step .MediaEnded (run ["track0.mp3", "track1.mp3"]
      [.ButtonPressed .A, .ButtonPressed .A])).current_track_index = 1 :=
  ⟨rfl, rfl, rfl⟩

/-- C4: in a `Playing` state, a `MediaEnded` event and a Next button press
produce identical resulting states — both run `next_track` on the same
state. -/
theorem media_end_equals_next (s : Player) (_h : statusOf s = .Playing) :
    step .MediaEnded s = step (.ButtonPressed .B) s := rfl

/-- Witness for C4 at a concrete playing state. -/
theorem media_end_equals_next_witness :
    step .MediaEnded (run ["a.mp3", "b.mp3"] [.ButtonPressed .A])
      = step (.ButtonPressed .B) (run ["a.mp3", "b.mp3"] [.ButtonPressed .A]) :=
  media_end_equals_next (run ["a.mp3", "b.mp3"] [.ButtonPressed .A]) (by decide)

theorem start_playback_volume (f : Bool) (s : Player) :
    (start_playback f s).volume = s.volume := by
  unfold start_playback
  split
  · split <;> rfl
  · rfl

theorem start_playback_index (f : Bool) (s : Player) :
    (start_playback f s).current_track_index = s.current_track_index := by
  unfold start_playback
  split
  · split <;> rfl
  · rfl

theorem start_playback_files (f : Bool) (s : Player) :
    (start_playback f s).audio_files = s.audio_files := by
  unfold start_playback
  split
  · split <;> rfl
  · rfl

theorem next_track_volume (f : Bool) (s : Player) :
    (next_track f s).volume = s.volume := by
  unfold next_track
  split
  · rfl
  · dsimp only
    split
    · rw [start_playback_volume]
    · rfl

theorem next_track_files (f : Bool) (s : Player) :
    (next_track f s).audio_files = s.audio_files := by
  unfold next_track
  split
  · rfl
  · dsimp only
    split
    · rw [start_playback_files]
    · rfl

theorem next_track_index (f : Bool) (s : Player)
    (h : s.audio_files.length ≠ 0) :
    (next_track f s).current_track_index
      = (s.current_track_index + 1) % s.audio_files.length := by
  unfold next_track
  rw [if_neg h]
  dsimp only
  split
  · rw [start_playback_index]
  · rfl

theorem toggle_playback_volume (f : Bool) (s : Player) :
    (toggle_playback f s).volume = s.volume := by
  unfold toggle_playback
  cases s.media
  · exact start_playback_volume f s
  · rfl

theorem step_volume_bounds (e : Event) (s : Player)
    (h0 : 0 ≤ s.volume) (h1 : s.volume ≤ 100) :
    0 ≤ (step e s).volume ∧ (step e s).volume ≤ 100 := by
  cases e with
  | ButtonPressed l =>
    cases l with
    | A => rw [step, handle_button, toggle_playback_volume]; exact ⟨h0, h1⟩
    | B => rw [step, handle_button, next_track_volume]; exact ⟨h0, h1⟩
    | X => dsimp [step, handle_button, adjust_volume]; omega
    | Y => dsimp [step, handle_button, adjust_volume]; omega
  | MediaEnded =>
    rw [step, on_media_end, next_track_volume]; exact ⟨h0, h1⟩

theorem foldl_volume_bounds (es : List Event) (s : Player)
    (h0 : 0 ≤ s.volume) (h1 : s.volume ≤ 100) :
    0 ≤ (es.foldl (fun s e => step e s) s).volume
  ∧ (es.foldl (fun s e => step e s) s).volume ≤ 100 := by
  induction es generalizing s with
  | nil => exact ⟨h0, h1⟩
  | cons e es ih =>
    exact ih (step e s) (step_volume_bounds e s h0 h1).1
      (step_volume_bounds e s h0 h1).2

/-- C5: across any event sequence from startup the volume stays in `[0,100]`;
a VolumeDown (X) or VolumeUp (Y) press clamps `volume ∓ 5` into the bounds
rather than wrapping, and leaves `trackIndex` and the status untouched. -/
theorem volume_clamping (files : List String) (es : List Event) :
    (0 ≤ (run files es).volume ∧ (run files es).volume ≤ 100)
  ∧ (step (.ButtonPressed .X) (run files es)).volume
      = max 0 (min 100 ((run files es).volume - 5))
  ∧ (step (.ButtonPressed .Y) (run files es)).volume
      = max 0 (min 100 ((run files es).volume + 5))
  ∧ (step (.ButtonPressed .X) (run files es)).current_track_index
      = (run files es).current_track_index
  ∧ (step (.ButtonPressed .Y) (run files es)).current_track_index
      = (run files es).current_track_index
  ∧ statusOf (step (.ButtonPressed .X) (run files es)) = statusOf (run files es)
  ∧ statusOf (step (.ButtonPressed .Y) (run files es)) = statusOf (run files es) := by
  refine ⟨foldl_volume_bounds es (init files) (by norm_num [init]) (by norm_num [init]),
    ?_, rfl, rfl, rfl, rfl, rfl⟩
  show max 0 (min 100 ((run files es).volume + (-5)))
      = max 0 (min 100 ((run files es).volume - 5))
  omega

theorem next_iterate (k : Nat) (s : Player)
    (h : s.current_track_index < s.audio_files.length) :
    ((fun t => step (.ButtonPressed .B) t)^[k] s).audio_files = s.audio_files
  ∧ ((fun t => step (.ButtonPressed .B) t)^[k] s).current_track_index
      = (s.current_track_index + k) % s.audio_files.length := by
  induction k with
  | zero =>
    exact ⟨rfl, by rw [Function.iterate_zero_apply, Nat.add_zero,
      Nat.mod_eq_of_lt h]⟩
  | succ k ih =>
    obtain ⟨hf, hi⟩ := ih
    have hn : s.audio_files.length ≠ 0 := Nat.not_eq_zero_of_lt h
    rw [Function.iterate_succ_apply']
    constructor
    · show (step (.ButtonPressed .B) _).audio_files = _
      rw [step, handle_button, next_track_files, hf]
    · show (step (.ButtonPressed .B) _).current_track_index = _
      rw [step, handle_button, next_track_index _ _ (by rw [hf]; exact hn),
        hf, hi, Nat.mod_add_mod, Nat.add_assoc]

/-- C6: a Next press advances `trackIndex` to `(trackIndex + 1) mod
len(catalog)`; from the last index it yields 0; `len(catalog)` Next presses
return to the starting index. -/
theorem next_cyclic (s : Player)
    (h : s.current_track_index < s.audio_files.length) :
    (step (.ButtonPressed .B) s).current_track_index
      = (s.current_track_index + 1) % s.audio_files.length
  ∧ (s.current_track_index = s.audio_files.length - 1 →
      (step (.ButtonPressed .B) s).current_track_index = 0)
  ∧ ((fun t => step (.ButtonPressed .B) t)^[s.audio_files.length] s).current_track_index
      = s.current_track_index := by
  have hn : s.audio_files.length ≠ 0 := Nat.not_eq_zero_of_lt h
  have h1 : (step (.ButtonPressed .B) s).current_track_index
      = (s.current_track_index + 1) % s.audio_files.length := by
    rw [step, handle_button, next_track_index _ _ hn]
  refine ⟨h1, ?_, ?_⟩
  · intro hlast
    rw [h1, hlast, Nat.sub_add_cancel (Nat.one_le_iff_ne_zero.mpr hn),
      Nat.mod_self]
  · rw [(next_iterate s.audio_files.length s h).2, Nat.add_mod_right,
      Nat.mod_eq_of_lt h]

/-- Witness for C6 over a three-track catalog at startup. -/
theorem next_cyclic_witness :
    (step (.ButtonPressed .B) (init ["a.mp3", "b.mp3", "c.mp3"])).current_track_index
      = ((init ["a.mp3", "b.mp3", "c.mp3"]).current_track_index + 1)
          % (init ["a.mp3", "b.mp3", "c.mp3"]).audio_files.length
  ∧ ((init ["a.mp3", "b.mp3", "c.mp3"]).current_track_index
        = (init ["a.mp3", "b.mp3", "c.mp3"]).audio_files.length - 1 →
      (step (.ButtonPressed .B) (init ["a.mp3", "b.mp3", "c.mp3"])).current_track_index
        = 0)
  ∧ ((fun t => step (.ButtonPressed .B) t)^[(init ["a.mp3", "b.mp3", "c.mp3"]).audio_files.length]
        (init ["a.mp3", "b.mp3", "c.mp3"])).current_track_index
      = (init ["a.mp3", "b.mp3", "c.mp3"]).current_track_index :=
  next_cyclic (init ["a.mp3", "b.mp3", "c.mp3"]) (by decide)

/-- C7 fails on the code: in the reachable `Playing` state at track 0 (one
PlayPause from startup), a Next press whose engine load raises is caught and
logged, but `is_playing` keeps its old value `true` — `self.is_playing =
True` sits after `play()` inside the try, and the except clause never resets
it — so the controller still reports `Playing` (with the index already
advanced and the superseded media still loaded) instead of reverting to
`Stopped`. -/
theorem failed_load_leaves_playing :
    statusOf (run ["a.mp3", "b.mp3"] [.ButtonPressed .A]) = .Playing
  ∧ statusOf (next_track true (run ["a.mp3", "b.mp3"] [.ButtonPressed .A]))
      = .Playing
  ∧ (next_track true (run ["a.mp3", "b.mp3"] [.ButtonPressed .A])).is_playing
      = true
  ∧ (next_track true (run ["a.mp3", "b.mp3"] [.ButtonPressed .A])).current_track_index
      = 1
  ∧ (next_track true (run ["a.mp3", "b.mp3"] [.ButtonPressed .A])).media
      = some "a.mp3" :=
  ⟨rfl, rfl, rfl, rfl, rfl⟩

theorem filter_audio_nil (entries : List String)
    (h : entries.filter (fun f => isAudioFile f) = []) (ext : String)
    (hext : ext ∈ audioExtensions) :
    entries.filter (fun f => extMatches ext f) = [] := by
  rw [List.filter_eq_nil_iff] at h ⊢
  intro f hf
  have hi := h f hf
  simp only [isAudioFile, List.any_eq_true, not_exists, not_and] at hi
  simpa using fun hc => hi ext hext hc

/-- C8: when the catalog directory is absent or holds no file matching an
audio extension, startup is `sys.exit(1)` with a diagnostic, so the run loop
never starts and no render call is ever made. -/
theorem empty_catalog_fatal (dirExists : Bool) (entries : List String)
    (es : List Event)
    (h : dirExists = false ∨ entries.filter (fun f => isAudioFile f) = []) :
    (∃ diag, startupOf dirExists entries = .exit1 diag)
  ∧ programRenders dirExists entries es = 0 := by
  have hload : ∃ diag, load_audio_files dirExists entries = .error diag := by
    rcases h with h | h
    · exact ⟨_, by rw [load_audio_files, if_pos h]⟩
    · cases dirExists with
      | false => exact ⟨_, by rw [load_audio_files, if_pos rfl]⟩
      | true =>
        refine ⟨"No audio files found in audio_library", ?_⟩
        rw [load_audio_files, if_neg (by simp)]
        have : (audioExtensions.map (fun ext =>
            sortStrings (entries.filter (fun f => extMatches ext f)))).flatten
            = [] := by
          rw [List.flatten_eq_nil_iff]
          intro l hl
          rw [List.mem_map] at hl
          obtain ⟨ext, hext, rfl⟩ := hl
          rw [filter_audio_nil entries h ext hext]
          rfl
        rw [this, if_pos rfl]
  obtain ⟨diag, hdiag⟩ := hload
  have hsu : startupOf dirExists entries = .exit1 diag := by
    rw [startupOf, hdiag]
  exact ⟨⟨diag, hsu⟩, by rw [programRenders, hsu]⟩

/-- Witness for C8: a directory with no recognized audio file. -/
theorem empty_catalog_fatal_witness :
    ((false = true ∨ List.filter (fun f => isAudioFile f) ["notes.txt"] = []) ∧
      ((∃ diag, startupOf false ["notes.txt"] = .exit1 diag)
        ∧ programRenders false ["notes.txt"] [] = 0)) ∧
    ((true = false ∨ List.filter (fun f => isAudioFile f) ["notes.txt"] = []) ∧
      ((∃ diag, startupOf true ["notes.txt"] = .exit1 diag)
        ∧ programRenders true ["notes.txt"] [] = 0)) :=
  ⟨⟨Or.inr (by decide),
      empty_catalog_fatal false ["notes.txt"] [] (Or.inl rfl)⟩,
    ⟨Or.inr (by decide),
      empty_catalog_fatal true ["notes.txt"] [] (Or.inr (by decide))⟩⟩

/-- C9 fails on the code: in luffy06 the event-handler thread's timed-out
`get` is swallowed by the bare except, which synthesizes nothing, and the
once-per-second `UPDATE_DISPLAY` is enqueued by the main run loop only while
`is_playing` — so a quiet second in a non-playing state (here the startup
state) produces zero refresh-triggered renders, not exactly one. -/
theorem timeout_refresh_counterexample :
    Luffy06.queue_get (Luffy06.init6 ["a.mp3", "b.mp3"] 0)
      = (none, Luffy06.init6 ["a.mp3", "b.mp3"] 0)
  ∧ Luffy06.event_handler_step (Luffy06.init6 ["a.mp3", "b.mp3"] 0) none
      = (Luffy06.init6 ["a.mp3", "b.mp3"] 0, 0)
  ∧ Luffy06.quietTickRenders (Luffy06.init6 ["a.mp3", "b.mp3"] 0) = 0
  ∧ ¬ Luffy06.quietTickRenders (Luffy06.init6 ["a.mp3", "b.mp3"] 0) = 1 :=
  ⟨rfl, rfl, rfl, by decide⟩

/-- C9 amended: the consumer's timeout branch does nothing (no synthesized
refresh, no render); during a quiet second the refresh instead comes from the
main run loop, which enqueues `UPDATE_DISPLAY` only while playing, so one
tick yields exactly one render while `Playing` and zero otherwise. -/
theorem quiet_tick_renders (s : Luffy06.Player6) (h : s.event_queue = []) :
    Luffy06.event_handler_step s none = (s, 0)
  ∧ Luffy06.quietTickRenders s = (if s.is_playing then 1 else 0) := by
  refine ⟨rfl, ?_⟩
  unfold Luffy06.quietTickRenders Luffy06.run_tick
  cases hp : s.is_playing <;>
    simp [h, hp, Luffy06.drainLoop, Luffy06.processEvent]

/-- Witness for C9 amended: one quiet tick from the (non-playing) startup
state renders nothing. -/
theorem quiet_tick_renders_witness :
    Luffy06.event_handler_step (Luffy06.init6 ["a.mp3"] 0) none
      = (Luffy06.init6 ["a.mp3"] 0, 0)
  ∧ Luffy06.quietTickRenders (Luffy06.init6 ["a.mp3"] 0)
      = (if (Luffy06.init6 ["a.mp3"] 0).is_playing then 1 else 0) :=
  quiet_tick_renders (Luffy06.init6 ["a.mp3"] 0) rfl

/-- C10 fails on the code: luffy06's GPIO button callback takes the lock and
applies the transition to the shared player state in its own context — a
VolumeUp press from the startup state changes the `volume` field right there
instead of only enqueuing an event. -/
theorem button_callback_mutates_state :
    (Luffy06.handle_button .Y (Luffy06.init6 ["a.mp3", "b.mp3"] 0)).volume = 55
  ∧ (Luffy06.init6 ["a.mp3", "b.mp3"] 0).volume = 50 :=
  ⟨rfl, rfl⟩

/-- C10 amended: the engine-notification callback is enqueue-only — it
appends `MEDIA_END` and leaves every playback field unchanged — while the
button callback applies the full playback transition (toggle, next, volume)
directly to the shared state in its own context, serialized only by the
lock. -/
theorem producer_context_behaviour (s : Luffy06.Player6) :
    Luffy06.on_media_state_changed s
      = { s with event_queue := s.event_queue ++ [.MEDIA_END] }
  ∧ (Luffy06.on_media_state_changed s).is_playing = s.is_playing
  ∧ (Luffy06.on_media_state_changed s).current_track_index
      = s.current_track_index
  ∧ (Luffy06.on_media_state_changed s).volume = s.volume
  ∧ (Luffy06.on_media_state_changed s).current_media = s.current_media
  ∧ Luffy06.handle_button .A s = Luffy06.toggle_playback false s
  ∧ Luffy06.handle_button .B s = Luffy06.next_track false s
  ∧ Luffy06.handle_button .X s = Luffy06.adjust_volume (-5) s
  ∧ Luffy06.handle_button .Y s = Luffy06.adjust_volume 5 s :=
  ⟨rfl, rfl, rfl, rfl, rfl, rfl, rfl, rfl, rfl⟩
